import Mathlib

/-!
# Prudodetect: the detection orchestration path

A shallow embedding of `internal/domain/detection.go`, `internal/handler/ml/model.go`
(`ModelAdapter.Predict`) and `internal/service/detection.go`
(`DetectorService.DetectObjects`), followed by the properties of the orchestration path.

Conventions of the embedding.
* A Go `error` is a `GoError`; the nil error is `none : Option GoError`.
* A Go slice is a `List`; the nil slice and the empty slice are both `[]` (the code only
  ranges over slices, appends to them and takes their length).
* A `float32` is its IEEE-754 binary32 bit fields (`F32`), compared exactly.
* What is decided outside the repository is a field of `Env`: the errors of
  `CreateFormFile`, `io.Copy` and `http.NewRequest`, the round trip of the request, what
  `net/http` does after a redirect answer, and the decoding of a non-empty JSON object.
* The call `client.Do` and the call `Decode` are functions over `Env` (`Env.clientDo`,
  `jsonDecode`): an answer that is not a redirect is returned as it is, and the bodies
  that are empty, `null`, `{}` or not an object are decided here.
* The multipart boundary, drawn at random by `multipart.NewWriter`, is an explicit argument.
* Every outcome carries its trace: the invocations of `Predict`, the calls of `client.Do`
  and the HTTP requests put on the wire.
-/

namespace Prudodetect

/-! ## float32 -/

/-- An IEEE-754 binary32 value, given by its sign bit, its 8-bit biased exponent and its
23-bit fraction. -/
structure F32 where
  sign : Bool
  expo : Fin 256
  frac : Fin 8388608
deriving DecidableEq, Repr

namespace F32

/-- The 32-bit pattern of the value. -/
def bits (x : F32) : Nat :=
  (if x.sign then 2147483648 else 0) + x.expo.val * 8388608 + x.frac.val

/-- Not-a-number: all exponent bits set and a non-zero fraction. -/
def isNaN (x : F32) : Bool :=
  x.expo.val == 255 && x.frac.val != 0

/-- The magnitude of a non-NaN value multiplied by `2^149`, which is a natural number:
`frac` for zero and subnormals, `(2^23 + frac) * 2^(expo - 1)` for normal numbers. An
infinity (`expo = 255`, `frac = 0`) gets `2^277`, above every finite magnitude. -/
def scaledMag (x : F32) : Nat :=
  if x.expo.val = 0 then x.frac.val else (8388608 + x.frac.val) * 2 ^ (x.expo.val - 1)

/-- The value of a non-NaN float multiplied by `2^149`, as an integer (`+0` and `-0` both
give `0`). -/
def scaled (x : F32) : Int :=
  if x.sign then -(x.scaledMag : Int) else (x.scaledMag : Int)

/-- Go's `a > b` on `float32`: false when either operand is NaN, otherwise the comparison
of the two values. -/
def gt (a b : F32) : Bool :=
  !a.isNaN && !b.isNaN && decide (b.scaled < a.scaled)

/-- Halving `n` until it falls below `2`, at most `fuel` times, counting the halvings. -/
def log2Aux : Nat → Nat → Nat
  | 0, _ => 0
  | fuel + 1, n => if n < 2 then 0 else log2Aux fuel (n / 2) + 1

/-- The floor of the binary logarithm of `n` (`0` for `n = 0`): `n` halvings are always
enough. -/
def log2Floor (n : Nat) : Nat := log2Aux n n

/-- The nearest integer to `n / d`, ties to the even one (`d > 0`). -/
def roundHalfEven (n d : Nat) : Nat :=
  let q := n / d
  let r := n % d
  if 2 * r < d then q
  else if d < 2 * r then q + 1
  else if q % 2 = 0 then q else q + 1

/-- The float32 of given sign whose exponent and fraction fields, read as one 31-bit
number, are `m`; an `m` at or above `0x7F800000` overflows to infinity. -/
def ofMagBits (sign : Bool) (m : Nat) : F32 :=
  if m < 2139095040 then
    { sign := sign, expo := Fin.ofNat (m / 8388608), frac := Fin.ofNat (m % 8388608) }
  else
    { sign := sign, expo := 255, frac := 0 }

/-- The float32 nearest to the non-negative rational `n / d` (`d > 0`), ties to even: the
conversion Go applies to the untyped constant `0.3` in `det.Conf > 0.3`, and the one
`encoding/json` applies to a JSON number stored into a `float32` field.

With `e = ⌊log2 (n / d)⌋`, a value in the normal range (`e ≥ -126`) is rounded to a
multiple of `2^(e - 23)`, and a smaller one to a multiple of `2^(-149)`. The rounded
significand `s` lies in `[2^23, 2^24]`, so `(e + 126) * 2^23 + s` is the magnitude bit
pattern, a carry into the exponent included. -/
def ofRatio (n d : Nat) : F32 :=
  if n = 0 then { sign := false, expo := 0, frac := 0 }
  else if d ≤ n then
    -- n / d ≥ 1 : e = log2 (n / d) ≥ 0
    let e := log2Floor (n / d)
    let s := if e ≤ 23 then roundHalfEven (n * 2 ^ (23 - e)) d
             else roundHalfEven n (d * 2 ^ (e - 23))
    ofMagBits false ((e + 126) * 8388608 + s)
  else
    -- n / d < 1 : e = -k with k the least exponent such that n * 2^k ≥ d
    let j := log2Floor (d / n)
    let k := if n * 2 ^ j = d then j else j + 1
    if k ≤ 126 then
      ofMagBits false ((126 - k) * 8388608 + roundHalfEven (n * 2 ^ (23 + k)) d)
    else
      ofMagBits false (roundHalfEven (n * 2 ^ 149) d)

end F32

/-! ## errors and formatting -/

/-- A Go error value: either a plain error with a message, or an error built by
`fmt.Errorf` with the `%w` verb, which has its own message and wraps an inner error. -/
inductive GoError where
  | leaf (msg : String)
  | wrap (msg : String) (inner : GoError)
deriving DecidableEq, Repr

namespace GoError

/-- The method `Error()`: the message of the error. -/
def Error : GoError → String
  | leaf msg => msg
  | wrap msg _ => msg

/-- The method `Unwrap()`: the wrapped error, if any. -/
def Unwrap : GoError → Option GoError
  | leaf _ => none
  | wrap _ inner => some inner

end GoError

/-- The result of `fmt.Errorf(pre + "%w", err)`: the message is `pre` followed by the
message of `err`, and the new error wraps `err`. -/
def Errorf_w (pre : String) (err : GoError) : GoError :=
  GoError.wrap (pre ++ err.Error) err

/-- The verb `%d` of `fmt` applied to an `int`: decimal digits, with a leading minus sign
for a negative number. -/
def fmt_d (i : Int) : String :=
  if i < 0 then "-" ++ Nat.repr i.natAbs else Nat.repr i.natAbs

/-! ## `internal/domain/detection.go` -/

/-- The struct `domain.BoundingBox`. -/
structure BoundingBox where
  X : Int
  Y : Int
  Width : Int
  Height : Int
  Class : String
  Conf : F32
deriving DecidableEq, Repr

/-- The struct `domain.DetectionResult`. -/
structure DetectionResult where
  Detections : List BoundingBox
  ImageURL : String
  Success : Bool
  Message : String
deriving DecidableEq, Repr

/-- The struct `domain.DetectionRequest`. -/
structure DetectionRequest where
  ImageData : List UInt8
  Filename : String
deriving DecidableEq, Repr

/-! ## `internal/handler/ml/model.go` -/

/-- The struct `ml.ModelAdapter`. -/
structure ModelAdapter where
  modelPath : String
  inferenceURL : String
deriving DecidableEq, Repr

/-- The constructor `ml.NewModelAdapter`. -/
def NewModelAdapter (modelPath inferenceURL : String) : ModelAdapter :=
  { modelPath := modelPath, inferenceURL := inferenceURL }

/-- The outbound HTTP request `Predict` hands to `client.Do`: method, URL, the
`Content-Type` header, and the single file part of the multipart body. -/
structure Request where
  Method : String
  URL : String
  ContentType : String
  FieldName : String
  FileName : String
  File : List UInt8
deriving DecidableEq, Repr

/-- What `Predict` reads of an `http.Response`. -/
structure Response where
  StatusCode : Int
  Body : List UInt8
deriving DecidableEq, Repr

/-- The answer of a server to one HTTP request, as the transport hands it to the client:
status code, `Location` header (empty when absent) and body. -/
structure Answer where
  StatusCode : Int
  Location : String
  Body : List UInt8
deriving DecidableEq, Repr

/-- An HTTP request put on the wire: its method and its URL. -/
structure WireRequest where
  Method : String
  URL : String
deriving DecidableEq, Repr

/-- What the transport does with one request: it fails before the request is written
(a refused connection, say), it writes the request and fails before a response arrives,
or it writes the request and gets an answer. A POST is not idempotent, so the transport
does not write it a second time within one round trip. The error is the one `client.Do`
returns. -/
inductive RoundTrip where
  | notSent (err : GoError)
  | lost (err : GoError)
  | answered (a : Answer)
deriving DecidableEq, Repr

/-- What one call of `client.Do` returns, with the requests it put on the wire, in order. -/
structure DoOutcome where
  result : Except GoError Response
  wire : List WireRequest

/-- The behaviour of the world outside the repository, each part as a function of what it
receives. -/
structure Env where
  /-- The error of `writer.CreateFormFile("file", "image.jpg")`. -/
  createFormFile : Option GoError
  /-- The error of `io.Copy(part, bytes.NewReader(imageData))`. -/
  ioCopy : List UInt8 → Option GoError
  /-- The error of `http.NewRequest(method, url, body)`. -/
  newRequest : String → String → Option GoError
  /-- The round trip of the request `Predict` built: the first hop of `client.Do`. -/
  roundTrip : Request → RoundTrip
  /-- What `net/http` does after the first hop was answered with a redirect status it
  follows: the further requests it puts on the wire and what `client.Do` returns in the
  end (the final response, the redirect response itself, or an error). -/
  followRedirect : Request → Answer → DoOutcome
  /-- The outcome of `Decode` on a body that starts with a JSON object other than the
  empty one: an error, or the decoded field `result.Detections`. -/
  decodeObject : List UInt8 → Except GoError (List BoundingBox)
  /-- The error `Decode` returns for a body it rejects (a syntax error, an unexpected end
  of input, or a value that cannot be stored in the struct). -/
  decodeError : List UInt8 → GoError

/-- The status codes after which the zero `http.Client` issues a further request. A POST
built by `http.NewRequest` from a `*bytes.Buffer` can be replayed, so 307 and 308 are
followed like 301, 302 and 303. -/
def isRedirect (code : Int) : Bool :=
  code = 301 || code = 302 || code = 303 || code = 307 || code = 308

namespace Env

/-- The call `client.Do(req)` on the zero `http.Client`, with the requests it puts on the
wire. A round trip that fails gives the error; an answer whose status is not a redirect
status is returned as the response; after a redirect status `net/http` goes on by itself
(`followRedirect`). -/
def clientDoOutcome (env : Env) (req : Request) : DoOutcome :=
  match env.roundTrip req with
  | .notSent err => ⟨.error err, []⟩
  | .lost err => ⟨.error err, [⟨req.Method, req.URL⟩]⟩
  | .answered a =>
    if isRedirect a.StatusCode then
      ⟨(env.followRedirect req a).result,
        ⟨req.Method, req.URL⟩ :: (env.followRedirect req a).wire⟩
    else
      ⟨.ok { StatusCode := a.StatusCode, Body := a.Body }, [⟨req.Method, req.URL⟩]⟩

/-- The pair `resp, err` that `client.Do(req)` returns. -/
def clientDo (env : Env) (req : Request) : Except GoError Response :=
  (env.clientDoOutcome req).result

end Env

/-- The white space of JSON: space, tab, carriage return, line feed. -/
def isSpace (c : UInt8) : Bool :=
  c = 32 || c = 9 || c = 13 || c = 10

/-- The input without its leading white space. -/
def skipSpace : List UInt8 → List UInt8
  | [] => []
  | c :: cs => if isSpace c then skipSpace cs else c :: cs

/-- The call `json.NewDecoder(resp.Body).Decode(&result)` on a body delivered in full,
giving `result.Detections`. `Decode` reads the first JSON value of the body and ignores
what follows it.
* A body that is empty or blank gives `io.EOF`.
* The literal `null` (first byte `n`, 110) leaves the struct untouched: no detections.
* The empty object (first byte `{`, 123, then `}`, 125) sets no field: no detections.
* Any other object is decoded by `encoding/json` field by field (`decodeObject`).
* Every other first byte starts an array, a string, a number or a boolean, none of which
  can be stored in a struct, or starts no JSON value at all: an error. -/
def jsonDecode (env : Env) (body : List UInt8) : Except GoError (List BoundingBox) :=
  match skipSpace body with
  | [] => .error (GoError.leaf "EOF")
  | c :: rest =>
    if c = 110 then
      if rest.take 3 = [117, 108, 108] then .ok [] else .error (env.decodeError body)
    else if c = 123 then
      if (skipSpace rest).head? = some 125 then .ok [] else env.decodeObject body
    else .error (env.decodeError body)

/-- The bodies rejected on their first byte: empty or blank, or starting with a byte that
neither opens an object nor starts the literal `null`. -/
def rejectedAtFirstByte (body : List UInt8) : Bool :=
  match skipSpace body with
  | [] => true
  | c :: _ => c != 110 && c != 123

/-- An observable step of a call: an invocation of `Predict`, a call of `client.Do`, an
HTTP request put on the wire. -/
inductive Event where
  | predict (imageData : List UInt8)
  | clientDo (req : Request)
  | sent (w : WireRequest)
deriving DecidableEq, Repr

/-- The pair returned by `Predict`, with the outbound calls made on the way. -/
structure PredictOutcome where
  detections : List BoundingBox
  err : Option GoError
  trace : List Event
deriving DecidableEq, Repr

/-- The method `writer.FormDataContentType()` for a boundary made of hexadecimal digits. -/
def FormDataContentType (boundary : String) : String :=
  "multipart/form-data; boundary=" ++ boundary

/-- The constant `http.StatusOK`. -/
def StatusOK : Int := 200

/-- The request `Predict` builds: a POST to the configured URL whose multipart body has
one file part, named `file`, with the fixed file name `image.jpg` and the image bytes. -/
def buildRequest (m : ModelAdapter) (boundary : String) (imageData : List UInt8) : Request :=
  { Method := "POST", URL := m.inferenceURL,
    ContentType := FormDataContentType boundary,
    FieldName := "file", FileName := "image.jpg", File := imageData }

/-- The trace of the one call `client.Do(req)`: the call, then the requests it put on the
wire. -/
def doTrace (env : Env) (req : Request) : List Event :=
  Event.clientDo req :: (env.clientDoOutcome req).wire.map Event.sent

/-- The method `ModelAdapter.Predict`, statement by statement: `CreateFormFile`, `io.Copy`
and `http.NewRequest` each return early with their error wrapped; `client.Do` is called once
(recorded in the trace) and its error is wrapped; a status other than `http.StatusOK` gives
the error "inference failed with status: %d"; otherwise the body is decoded, a decoding
error is wrapped, and the decoded `Detections` are returned with a nil error. The calls
`writer.Close()` and `resp.Body.Close()` return nothing that `Predict` reads. -/
def Predict (env : Env) (m : ModelAdapter) (boundary : String) (imageData : List UInt8) :
    PredictOutcome :=
  match env.createFormFile with
  | some err => ⟨[], some (Errorf_w "create form file: " err), []⟩
  | none =>
    match env.ioCopy imageData with
    | some err => ⟨[], some (Errorf_w "copy image data: " err), []⟩
    | none =>
      match env.newRequest "POST" m.inferenceURL with
      | some err => ⟨[], some (Errorf_w "create request: " err), []⟩
      | none =>
        let req := buildRequest m boundary imageData
        match env.clientDo req with
        | .error err => ⟨[], some (Errorf_w "send request: " err), doTrace env req⟩
        | .ok resp =>
          if resp.StatusCode ≠ StatusOK then
            ⟨[], some (GoError.leaf ("inference failed with status: " ++ fmt_d resp.StatusCode)),
              doTrace env req⟩
          else
            match jsonDecode env resp.Body with
            | .error err => ⟨[], some (Errorf_w "decode response: " err), doTrace env req⟩
            | .ok dets => ⟨dets, none, doTrace env req⟩

/-! ## `internal/service/detection.go` -/

/-- The struct `service.DetectorService`. -/
structure DetectorService where
  model : ModelAdapter
deriving DecidableEq, Repr

/-- The constructor `service.NewDetectorService`. -/
def NewDetectorService (model : ModelAdapter) : DetectorService :=
  { model := model }

/-- The pair returned by `DetectObjects` (`none` is the nil pointer, respectively the nil
error), with the trace of the call. -/
structure DetectOutcome where
  result : Option DetectionResult
  err : Option GoError
  trace : List Event
deriving DecidableEq, Repr

/-- The constant `0.3` of `det.Conf > 0.3`, converted to `float32` as Go does for a
constant operand of a `float32` comparison. -/
def threshold : F32 := F32.ofRatio 3 10

/-- The loop `for _, det := range detections` of `DetectObjects`, started from the slice
`acc`. -/
def filterLoop (acc : List BoundingBox) (detections : List BoundingBox) : List BoundingBox :=
  detections.foldl (fun filtered det =>
    if F32.gt det.Conf threshold then filtered ++ [det] else filtered) acc

/-- The method `DetectorService.DetectObjects`: the guard on an empty image, the call of
`Predict` (recorded in the trace) with its error wrapped by
`fmt.Errorf("model prediction failed: %w", err)`, the filtering loop, and the result built
from the filtered slice. -/
def DetectObjects (env : Env) (s : DetectorService) (boundary : String)
    (req : DetectionRequest) : DetectOutcome :=
  if req.ImageData.length = 0 then
    ⟨some { Detections := [], ImageURL := "", Success := false,
            Message := "No image data provided" }, none, []⟩
  else
    let p := Predict env s.model boundary req.ImageData
    match p.err with
    | some err =>
      ⟨none, some (Errorf_w "model prediction failed: " err),
        Event.predict req.ImageData :: p.trace⟩
    | none =>
      let filtered := filterLoop [] p.detections
      ⟨some { Detections := filtered, ImageURL := "", Success := true,
              Message := "Found " ++ fmt_d filtered.length ++ " objects" }, none,
        Event.predict req.ImageData :: p.trace⟩

/-! ## traces and sample data -/

/-- The number of `Predict` invocations in a trace. -/
def predictCalls (t : List Event) : Nat :=
  t.countP (fun ev => match ev with
    | Event.predict _ => true
    | _ => false)

/-- The number of calls of `client.Do` in a trace. -/
def clientDoCalls (t : List Event) : Nat :=
  t.countP (fun ev => match ev with
    | Event.clientDo _ => true
    | _ => false)

/-- The number of POST requests put on the wire in a trace. -/
def posts (t : List Event) : Nat :=
  t.countP (fun ev => match ev with
    | Event.sent w => w.Method == "POST"
    | _ => false)

/-- The bytes of an ASCII text. -/
def bytesOf (s : String) : List UInt8 :=
  s.data.map (fun c => c.toNat.toUInt8)

/-- A response body with a `qr` box at `0.9` and a `stamp` box at `0.1`. -/
def twoBoxBody : List UInt8 :=
  bytesOf ("\x7b\"detections\":[" ++
    "\x7b\"x\":10,\"y\":20,\"width\":30,\"height\":40,\"class\":\"qr\",\"confidence\":0.9\x7d," ++
    "\x7b\"x\":50,\"y\":60,\"width\":70,\"height\":80,\"class\":\"stamp\",\"confidence\":0.1\x7d" ++
    "]\x7d")

/-- A response body with no box. -/
def noBoxBody : List UInt8 :=
  bytesOf "\x7b\"detections\":[]\x7d"

/-- A response body with a `signature` box at `0.3` and one at `0.30001`. -/
def boundaryBody : List UInt8 :=
  bytesOf ("\x7b\"detections\":[" ++
    "\x7b\"x\":1,\"y\":2,\"width\":3,\"height\":4,\"class\":\"signature\",\"confidence\":0.3\x7d," ++
    "\x7b\"x\":5,\"y\":6,\"width\":7,\"height\":8,\"class\":\"signature\",\"confidence\":0.30001\x7d" ++
    "]\x7d")

/-- An environment in which building the request succeeds, the round trip of every
request is `rt`, a followed redirect ends with the redirect response itself, and decoding
every non-empty object gives `dec`. -/
def constEnv (rt : RoundTrip) (dec : Except GoError (List BoundingBox)) : Env :=
  { createFormFile := none
    ioCopy := fun _ => none
    newRequest := fun _ _ => none
    roundTrip := fun _ => rt
    followRedirect := fun _ a => ⟨.ok { StatusCode := a.StatusCode, Body := a.Body }, []⟩
    decodeObject := fun _ => dec
    decodeError := fun _ => GoError.leaf "invalid character \x27<\x27 looking for beginning of value" }

/-- The service built by `main` from the default configuration. -/
def sampleService : DetectorService :=
  NewDetectorService (NewModelAdapter "./models/best.pt" "http://localhost:5000/predict")

/-- A request carrying three image bytes. -/
def sampleRequest : DetectionRequest :=
  { ImageData := [255, 216, 255], Filename := "scan.jpg" }

/-- A request carrying no image bytes. -/
def emptyRequest : DetectionRequest :=
  { ImageData := [], Filename := "scan.jpg" }

/-- A box of class `qr` with confidence `0.9`. -/
def qrBox : BoundingBox :=
  { X := 10, Y := 20, Width := 30, Height := 40, Class := "qr", Conf := F32.ofRatio 9 10 }

/-- A box of class `stamp` with confidence `0.1`. -/
def stampBox : BoundingBox :=
  { X := 50, Y := 60, Width := 70, Height := 80, Class := "stamp", Conf := F32.ofRatio 1 10 }

/-- An environment whose backend answers 200 and whose body decodes to the two sample
boxes. -/
def twoBoxEnv : Env :=
  constEnv (.answered { StatusCode := 200, Location := "", Body := twoBoxBody })
    (.ok [qrBox, stampBox])

/-- An environment whose transport fails before writing, with "connection refused". -/
def refusedEnv : Env :=
  constEnv (.notSent (GoError.leaf "connection refused")) (.ok [])

/-- An environment whose backend answers 503 with an empty body. -/
def unavailableEnv : Env :=
  constEnv (.answered { StatusCode := 503, Location := "", Body := [] }) (.ok [qrBox])

/-- An environment whose backend answers 200 with a body that decodes to no box. -/
def noBoxEnv : Env :=
  constEnv (.answered { StatusCode := 200, Location := "", Body := noBoxBody }) (.ok [])

/-- A box of class `signature` whose confidence is the float32 of `0.3`. -/
def atThresholdBox : BoundingBox :=
  { X := 1, Y := 2, Width := 3, Height := 4, Class := "signature", Conf := F32.ofRatio 3 10 }

/-- A box of class `signature` whose confidence is the float32 of `0.30001`. -/
def aboveThresholdBox : BoundingBox :=
  { X := 5, Y := 6, Width := 7, Height := 8, Class := "signature",
    Conf := F32.ofRatio 30001 100000 }

/-- An environment whose backend answers 200 with the two boxes around the threshold. -/
def boundaryEnv : Env :=
  constEnv (.answered { StatusCode := 200, Location := "", Body := boundaryBody })
    (.ok [atThresholdBox, aboveThresholdBox])

/-- An environment whose backend answers 200 with the body `body`, in which the decoder
would reject every non-empty object. -/
def bodyEnv (body : List UInt8) : Env :=
  constEnv (.answered { StatusCode := 200, Location := "", Body := body })
    (.error (GoError.leaf "json: cannot unmarshal string into Go struct field"))

/-- An environment whose backend answers 200 with the bytes of `<html>`. -/
def garbledEnv : Env :=
  bodyEnv [60, 104, 116, 109, 108, 62]

/-- A backend that is a function of the image bytes: it refuses an image that does not
start with the byte `0xFF` with status 415 and answers 200 otherwise. -/
def jpegBackend : List UInt8 → Except GoError Response
  | [] => .ok { StatusCode := 400, Body := [] }
  | b :: _ => .ok { StatusCode := if b = 255 then 200 else 415, Body := twoBoxBody }

/-- An environment whose `client.Do` is `jpegBackend` applied to the file part, and whose
decoder yields the two sample boxes. -/
def jpegEnv : Env :=
  { createFormFile := none
    ioCopy := fun _ => none
    newRequest := fun _ _ => none
    roundTrip := fun r =>
      match r.File with
      | [] => .answered { StatusCode := 400, Location := "", Body := [] }
      | b :: _ =>
        .answered { StatusCode := if b = 255 then 200 else 415, Location := "",
                    Body := twoBoxBody }
    followRedirect := fun _ a => ⟨.ok { StatusCode := a.StatusCode, Body := a.Body }, []⟩
    decodeObject := fun _ => .ok [qrBox, stampBox]
    decodeError := fun _ => GoError.leaf "unexpected end of JSON input" }

/-- A service configured with an inference URL that has no scheme. -/
def badURLService : DetectorService :=
  NewDetectorService (NewModelAdapter "./models/best.pt" ":5000/predict")

/-- An environment in which `http.NewRequest` rejects every URL but
`http://localhost:5000/predict`, and the backend would answer with the two sample boxes. -/
def strictURLEnv : Env :=
  { createFormFile := none
    ioCopy := fun _ => none
    newRequest := fun _ url =>
      if url = "http://localhost:5000/predict" then none
      else some (GoError.leaf "parse \":5000/predict\": missing protocol scheme")
    roundTrip := fun _ => .answered { StatusCode := 200, Location := "", Body := twoBoxBody }
    followRedirect := fun _ a => ⟨.ok { StatusCode := a.StatusCode, Body := a.Body }, []⟩
    decodeObject := fun _ => .ok [qrBox, stampBox]
    decodeError := fun _ => GoError.leaf "unexpected end of JSON input" }

/-- An environment whose backend answers the POST with 307 and a `Location`; `net/http`
sends the POST again to that location, where it is answered 200 with the two sample
boxes. -/
def redirectEnv : Env :=
  { createFormFile := none
    ioCopy := fun _ => none
    newRequest := fun _ _ => none
    roundTrip := fun _ =>
      .answered { StatusCode := 307, Location := "http://localhost:5000/v2/predict", Body := [] }
    followRedirect := fun r a =>
      ⟨.ok { StatusCode := 200, Body := twoBoxBody }, [⟨r.Method, a.Location⟩]⟩
    decodeObject := fun _ => .ok [qrBox, stampBox]
    decodeError := fun _ => GoError.leaf "unexpected end of JSON input" }

/-! ## helper lemmas -/

namespace F32

/-- With enough fuel, `log2Aux` brackets a positive `n` between two consecutive powers
of two. -/
theorem log2Aux_spec (fuel n : Nat) (hfuel : n ≤ fuel) (hpos : 0 < n) :
    2 ^ log2Aux fuel n ≤ n ∧ n < 2 ^ (log2Aux fuel n + 1) := by
  induction fuel generalizing n with
  | zero => omega
  | succ fuel ih =>
    by_cases hsmall : n < 2
    · have hn : n = 1 := by omega
      subst hn
      simp [log2Aux]
    · have hstep : log2Aux (fuel + 1) n = log2Aux fuel (n / 2) + 1 := by
        simp [log2Aux, hsmall]
      have hhalf := ih (n / 2) (by omega) (by omega)
      rw [hstep]
      constructor
      · rw [pow_succ]
        omega
      · rw [pow_succ]
        omega

/-- The function `log2Floor` is the floor of the binary logarithm. -/
theorem log2Floor_spec (n : Nat) (hpos : 0 < n) :
    2 ^ log2Floor n ≤ n ∧ n < 2 ^ (log2Floor n + 1) :=
  log2Aux_spec n n (le_refl n) hpos

/-- No float32 magnitude lies strictly between those of two adjacent fraction fields of
one normal binade. -/
theorem scaledMag_gap (y : F32) (e f : Nat) (he : 1 ≤ e) (hf : 1 ≤ f) (hf2 : f + 1 ≤ 8388608) :
    y.scaledMag ≤ (8388608 + f - 1) * 2 ^ (e - 1) ∨
    y.scaledMag = (8388608 + f) * 2 ^ (e - 1) ∨
    (8388608 + f + 1) * 2 ^ (e - 1) ≤ y.scaledMag := by
  have hP : 1 ≤ 2 ^ (e - 1) := Nat.one_le_two_pow
  have hfr : y.frac.val < 8388608 := y.frac.isLt
  have hbase : 8388608 * 2 ^ (e - 1) ≤ (8388608 + f - 1) * 2 ^ (e - 1) :=
    Nat.mul_le_mul_right _ (by omega)
  unfold scaledMag
  by_cases h0 : y.expo.val = 0
  · left
    rw [if_pos h0]
    have : 8388608 * 1 ≤ 8388608 * 2 ^ (e - 1) := Nat.mul_le_mul_left _ hP
    omega
  · rw [if_neg h0]
    rcases Nat.lt_trichotomy y.expo.val e with hlt | heq | hgt
    · left
      have hQ : 2 ^ (y.expo.val - 1) * 2 ≤ 2 ^ (e - 1) := by
        rw [← pow_succ]
        exact Nat.pow_le_pow_right (by decide) (by omega)
      have h1 : (8388608 + y.frac.val) * 2 ^ (y.expo.val - 1)
          ≤ 16777216 * 2 ^ (y.expo.val - 1) := Nat.mul_le_mul_right _ (by omega)
      have h2 : 8388608 * (2 ^ (y.expo.val - 1) * 2) ≤ 8388608 * 2 ^ (e - 1) :=
        Nat.mul_le_mul_left _ hQ
      omega
    · rw [heq]
      rcases Nat.lt_trichotomy y.frac.val f with hl | hm | hg
      · left
        exact Nat.mul_le_mul_right _ (by omega)
      · right; left
        rw [hm]
      · right; right
        exact Nat.mul_le_mul_right _ (by omega)
    · right; right
      have hQ : 2 ^ (e - 1) * 2 ≤ 2 ^ (y.expo.val - 1) := by
        rw [← pow_succ]
        exact Nat.pow_le_pow_right (by decide) (by omega)
      have h1 : 8388608 * 2 ^ (y.expo.val - 1)
          ≤ (8388608 + y.frac.val) * 2 ^ (y.expo.val - 1) := Nat.mul_le_mul_right _ (by omega)
      have h2 : (8388608 + f + 1) * 2 ^ (e - 1) ≤ 16777216 * 2 ^ (e - 1) :=
        Nat.mul_le_mul_right _ (by omega)
      have h3 : 8388608 * (2 ^ (e - 1) * 2) ≤ 8388608 * 2 ^ (y.expo.val - 1) :=
        Nat.mul_le_mul_left _ hQ
      omega

/-- The same for the signed values. -/
theorem scaled_gap (y : F32) (e f : Nat) (he : 1 ≤ e) (hf : 1 ≤ f) (hf2 : f + 1 ≤ 8388608) :
    y.scaled ≤ (((8388608 + f - 1) * 2 ^ (e - 1) : Nat) : Int) ∨
    y.scaled = (((8388608 + f) * 2 ^ (e - 1) : Nat) : Int) ∨
    (((8388608 + f + 1) * 2 ^ (e - 1) : Nat) : Int) ≤ y.scaled := by
  unfold scaled
  by_cases hs : y.sign = true
  · left
    rw [if_pos hs]
    omega
  · rw [if_neg hs]
    rcases scaledMag_gap y e f he hf hf2 with h | h | h
    · left; exact_mod_cast h
    · right; left; exact_mod_cast h
    · right; right; exact_mod_cast h

/-- A value `mid` that is at least as close to `N / d` as its two neighbours `lo` and `hi`
is at least as close as every `s` outside the open interval between them. -/
theorem abs_le_of_gap (s lo mid hi N d : Int) (hd : 0 ≤ d)
    (hs : s ≤ lo ∨ s = mid ∨ hi ≤ s)
    (hlo : |d * mid - N| ≤ N - d * lo) (hhi : |d * mid - N| ≤ d * hi - N) :
    |d * mid - N| ≤ |d * s - N| := by
  rcases hs with h | h | h
  · have h1 : d * s ≤ d * lo := Int.mul_le_mul_of_nonneg_left h hd
    have h2 : N - d * s ≤ |d * s - N| := by
      rw [abs_sub_comm]
      exact le_abs_self _
    omega
  · rw [h]
  · have h1 : d * hi ≤ d * s := Int.mul_le_mul_of_nonneg_left h hd
    have h2 : d * s - N ≤ |d * s - N| := le_abs_self _
    omega

end F32

/-- The constant `0.3` as a `float32` has the bit pattern `0x3E99999A`. -/
theorem threshold_eq : threshold = { sign := false, expo := 125, frac := 1677722 } := by
  decide

/-- No float32 value is closer to `3 / 10` than `threshold` (distances multiplied by
`10 * 2^149`). -/
theorem threshold_nearest (y : F32) :
    |10 * threshold.scaled - 3 * 2 ^ 149| ≤ |10 * y.scaled - 3 * 2 ^ 149| := by
  have hgap := F32.scaled_gap y 125 1677722 (by decide) (by decide) (by decide)
  have ht : threshold.scaled = (((8388608 + 1677722) * 2 ^ (125 - 1) : Nat) : Int) := by
    decide
  rw [ht]
  exact F32.abs_le_of_gap _ _ _ _ _ 10 (by decide) hgap (by norm_num [abs_le]) (by norm_num [abs_le])

/-- The float32 of `0.30001` has the bit pattern `0x3E999AE9`. -/
theorem ofRatio_30001_eq :
    F32.ofRatio 30001 100000 = { sign := false, expo := 125, frac := 1678057 } := by
  decide

/-- No float32 value is closer to `30001 / 100000` than `F32.ofRatio 30001 100000`
(distances multiplied by `100000 * 2^149`). -/
theorem ofRatio_30001_nearest (y : F32) :
    |100000 * (F32.ofRatio 30001 100000).scaled - 30001 * 2 ^ 149|
      ≤ |100000 * y.scaled - 30001 * 2 ^ 149| := by
  have hgap := F32.scaled_gap y 125 1678057 (by decide) (by decide) (by decide)
  have ht : (F32.ofRatio 30001 100000).scaled
      = (((8388608 + 1678057) * 2 ^ (125 - 1) : Nat) : Int) := by
    decide
  rw [ht]
  exact F32.abs_le_of_gap _ _ _ _ _ 100000 (by decide) hgap (by norm_num [abs_le])
    (by norm_num [abs_le])

/-- The test `det.Conf > 0.3` holds exactly for the non-NaN values above `threshold`. -/
theorem gt_threshold_iff (c : F32) :
    F32.gt c threshold = true ↔ c.isNaN = false ∧ threshold.scaled < c.scaled := by
  have hnan : threshold.isNaN = false := by decide
  simp [F32.gt, hnan]


theorem filterLoop_eq (acc l : List BoundingBox) :
    filterLoop acc l = acc ++ l.filter (fun b => F32.gt b.Conf threshold) := by
  induction l generalizing acc with
  | nil => simp [filterLoop]
  | cons b l ih =>
    have hstep : filterLoop acc (b :: l)
        = filterLoop (if F32.gt b.Conf threshold then acc ++ [b] else acc) l := rfl
    rw [hstep, ih]
    by_cases hb : F32.gt b.Conf threshold = true
    · simp [hb, List.filter_cons]
    · simp [hb, List.filter_cons]

theorem fmt_d_natCast (n : Nat) : fmt_d (n : Int) = toString n := by
  have h : ¬ ((n : Int) < 0) := by omega
  simp [fmt_d, h]
  rfl

theorem detect_of_nonempty (env : Env) (s : DetectorService) (boundary : String)
    (req : DetectionRequest) (hne : req.ImageData ≠ []) :
    DetectObjects env s boundary req =
      match (Predict env s.model boundary req.ImageData).err with
      | some err =>
        ⟨none, some (Errorf_w "model prediction failed: " err),
          Event.predict req.ImageData :: (Predict env s.model boundary req.ImageData).trace⟩
      | none =>
        ⟨some { Detections := filterLoop [] (Predict env s.model boundary req.ImageData).detections,
                ImageURL := "", Success := true,
                Message := "Found " ++
                  fmt_d (filterLoop [] (Predict env s.model boundary req.ImageData).detections).length
                  ++ " objects" }, none,
          Event.predict req.ImageData :: (Predict env s.model boundary req.ImageData).trace⟩ := by
  have hlen : ¬ (req.ImageData.length = 0) := by
    intro h
    exact hne (List.length_eq_zero.mp h)
  simp only [DetectObjects, hlen, if_false]

theorem detect_empty_image_result (env : Env) (s : DetectorService) (boundary : String)
    (req : DetectionRequest) (hempty : req.ImageData = []) :
    (DetectObjects env s boundary req).result =
      some { Detections := [], ImageURL := "", Success := false,
             Message := "No image data provided" } := by
  simp [DetectObjects, hempty]

theorem wrap_ne_self (msg : String) (e : GoError) : GoError.wrap msg e ≠ e := by
  intro h
  have hs := congrArg sizeOf h
  simp at hs

theorem fmt_d_eq_toString (i : Int) : fmt_d i = toString i := by
  cases i with
  | ofNat n => exact fmt_d_natCast n
  | negSucc n =>
    have h : Int.negSucc n < 0 := Int.negSucc_lt_zero n
    simp [fmt_d, h]
    rfl

theorem predict_of_built (env : Env) (m : ModelAdapter) (boundary : String)
    (imageData : List UInt8)
    (hform : env.createFormFile = none) (hcopy : env.ioCopy imageData = none)
    (hnew : env.newRequest "POST" m.inferenceURL = none) :
    Predict env m boundary imageData =
      match env.clientDo (buildRequest m boundary imageData) with
      | .error err =>
        ⟨[], some (Errorf_w "send request: " err),
          doTrace env (buildRequest m boundary imageData)⟩
      | .ok resp =>
        if resp.StatusCode ≠ StatusOK then
          ⟨[], some (GoError.leaf ("inference failed with status: " ++ fmt_d resp.StatusCode)),
            doTrace env (buildRequest m boundary imageData)⟩
        else
          match jsonDecode env resp.Body with
          | .error err =>
            ⟨[], some (Errorf_w "decode response: " err),
              doTrace env (buildRequest m boundary imageData)⟩
          | .ok dets => ⟨dets, none, doTrace env (buildRequest m boundary imageData)⟩ := by
  simp only [Predict, hform, hcopy, hnew]

theorem predict_trace_of_built (env : Env) (m : ModelAdapter) (boundary : String)
    (imageData : List UInt8)
    (hform : env.createFormFile = none) (hcopy : env.ioCopy imageData = none)
    (hnew : env.newRequest "POST" m.inferenceURL = none) :
    (Predict env m boundary imageData).trace = doTrace env (buildRequest m boundary imageData) := by
  rw [predict_of_built env m boundary imageData hform hcopy hnew]
  cases env.clientDo (buildRequest m boundary imageData) with
  | error err => rfl
  | ok resp =>
    dsimp only
    by_cases hcode : resp.StatusCode ≠ StatusOK
    · rw [if_pos hcode]
    · rw [if_neg hcode]
      cases jsonDecode env resp.Body with
      | error err => rfl
      | ok dets => rfl

theorem predict_trace_of_not_built (env : Env) (m : ModelAdapter) (boundary : String)
    (imageData : List UInt8)
    (h : env.createFormFile ≠ none ∨ env.ioCopy imageData ≠ none ∨
      env.newRequest "POST" m.inferenceURL ≠ none) :
    (Predict env m boundary imageData).trace = [] := by
  unfold Predict
  cases hform : env.createFormFile with
  | some err => rfl
  | none =>
    cases hcopy : env.ioCopy imageData with
    | some err => rfl
    | none =>
      cases hnew : env.newRequest "POST" m.inferenceURL with
      | some err => rfl
      | none =>
        rcases h with h | h | h
        · exact absurd hform h
        · exact absurd hcopy h
        · exact absurd hnew h

theorem detect_trace_of_nonempty (env : Env) (s : DetectorService) (boundary : String)
    (req : DetectionRequest) (hne : req.ImageData ≠ []) :
    (DetectObjects env s boundary req).trace =
      Event.predict req.ImageData :: (Predict env s.model boundary req.ImageData).trace := by
  rw [detect_of_nonempty env s boundary req hne]
  cases (Predict env s.model boundary req.ImageData).err with
  | some err => rfl
  | none => rfl

theorem predict_boundary_independent (env : Env) (m : ModelAdapter) (b1 b2 : String)
    (imageData : List UInt8) (backend : List UInt8 → Except GoError Response)
    (hbackend : ∀ r : Request, env.clientDo r = backend r.File) :
    (Predict env m b1 imageData).err = (Predict env m b2 imageData).err ∧
    (Predict env m b1 imageData).detections = (Predict env m b2 imageData).detections := by
  have h1 : env.clientDo (buildRequest m b1 imageData) = backend imageData := hbackend _
  have h2 : env.clientDo (buildRequest m b2 imageData) = backend imageData := hbackend _
  unfold Predict
  cases env.createFormFile with
  | some err => exact ⟨rfl, rfl⟩
  | none =>
    cases env.ioCopy imageData with
    | some err => exact ⟨rfl, rfl⟩
    | none =>
      cases env.newRequest "POST" m.inferenceURL with
      | some err => exact ⟨rfl, rfl⟩
      | none =>
        dsimp only
        rw [h1, h2]
        cases backend imageData with
        | error err => exact ⟨rfl, rfl⟩
        | ok resp =>
          dsimp only
          by_cases hcode : resp.StatusCode ≠ StatusOK
          · rw [if_pos hcode, if_pos hcode]
            exact ⟨rfl, rfl⟩
          · rw [if_neg hcode, if_neg hcode]
            cases jsonDecode env resp.Body with
            | error err => exact ⟨rfl, rfl⟩
            | ok dets => exact ⟨rfl, rfl⟩

/-- An answer whose status is not a redirect status is what `client.Do` returns, after
exactly one request on the wire. -/
theorem clientDoOutcome_of_direct_answer (env : Env) (req : Request) (a : Answer)
    (hrt : env.roundTrip req = .answered a) (hdirect : isRedirect a.StatusCode = false) :
    env.clientDo req = .ok { StatusCode := a.StatusCode, Body := a.Body } ∧
    (env.clientDoOutcome req).wire = [⟨req.Method, req.URL⟩] := by
  simp [Env.clientDo, Env.clientDoOutcome, hrt, hdirect]

/-- A body rejected on its first byte makes `Decode` fail. -/
theorem jsonDecode_of_rejected (env : Env) (body : List UInt8)
    (hrej : rejectedAtFirstByte body = true) :
    ∃ e, jsonDecode env body = .error e := by
  unfold rejectedAtFirstByte at hrej
  unfold jsonDecode
  cases hs : skipSpace body with
  | nil => exact ⟨_, rfl⟩
  | cons c rest =>
    rw [hs] at hrej
    simp only [Bool.and_eq_true, bne_iff_ne, ne_eq] at hrej
    dsimp only
    rw [if_neg hrej.1, if_neg hrej.2]
    exact ⟨_, rfl⟩

/-- A 200 response whose body `Decode` rejects makes `Predict` return the wrapped decoding
error and no boxes. -/
theorem predict_decode_error (env : Env) (m : ModelAdapter) (boundary : String)
    (imageData body : List UInt8) (e : GoError)
    (hform : env.createFormFile = none) (hcopy : env.ioCopy imageData = none)
    (hnew : env.newRequest "POST" m.inferenceURL = none)
    (hresp : env.clientDo (buildRequest m boundary imageData)
      = .ok { StatusCode := 200, Body := body })
    (hdec : jsonDecode env body = .error e) :
    Predict env m boundary imageData =
      ⟨[], some (Errorf_w "decode response: " e),
        doTrace env (buildRequest m boundary imageData)⟩ := by
  have hp := predict_of_built env m boundary imageData hform hcopy hnew
  rw [hresp] at hp
  dsimp only at hp
  have hcode : ¬ ((200 : Int) ≠ StatusOK) := by decide
  rw [if_neg hcode, hdec] at hp
  exact hp

/-- The POSTs of a call that reached `client.Do` are those `client.Do` put on the wire. -/
theorem posts_doTrace (env : Env) (req : Request) (imageData : List UInt8) :
    posts (Event.predict imageData :: doTrace env req) =
      (env.clientDoOutcome req).wire.countP (fun w => w.Method == "POST") := by
  simp [posts, doTrace, List.countP_cons, List.countP_map, Function.comp_def]

/-- The `client.Do` of `jpegEnv` is `jpegBackend` applied to the file part. -/
theorem jpegEnv_clientDo (r : Request) : jpegEnv.clientDo r = jpegBackend r.File := by
  cases hfile : r.File with
  | nil => simp [Env.clientDo, Env.clientDoOutcome, jpegEnv, jpegBackend, hfile, isRedirect]
  | cons b rest =>
    by_cases hb : b = 255
    · simp [Env.clientDo, Env.clientDoOutcome, jpegEnv, jpegBackend, hfile, isRedirect, hb]
    · simp [Env.clientDo, Env.clientDoOutcome, jpegEnv, jpegBackend, hfile, isRedirect, hb]

/-! ## the claims -/

/-- C1: for a non-empty image whose backend response `Predict` decodes into `boxes`, the
detections of the result are exactly the boxes whose confidence is above `0.3`, in their
original order and unchanged: a sub-sequence of `boxes` in which every box is above the
threshold and from which no box above the threshold is missing. -/
theorem detect_keeps_boxes_above_threshold (env : Env) (s : DetectorService)
    (boundary : String) (req : DetectionRequest) (boxes : List BoundingBox)
    (hne : req.ImageData ≠ [])
    (herr : (Predict env s.model boundary req.ImageData).err = none)
    (hdet : (Predict env s.model boundary req.ImageData).detections = boxes) :
    ∃ r, (DetectObjects env s boundary req).result = some r ∧
      r.Detections = boxes.filter (fun b => F32.gt b.Conf threshold) ∧
      r.Detections.Sublist boxes ∧
      (∀ b ∈ r.Detections, F32.gt b.Conf threshold = true) ∧
      (∀ b ∈ boxes, F32.gt b.Conf threshold = true → b ∈ r.Detections) := by
  rw [detect_of_nonempty env s boundary req hne, herr, hdet]
  refine ⟨_, rfl, ?_, ?_, ?_, ?_⟩
  · simp [filterLoop_eq]
  · simp [filterLoop_eq]
  · intro b hb
    simp only [filterLoop_eq, List.nil_append, List.mem_filter] at hb
    exact hb.2
  · intro b hb hgt
    simp only [filterLoop_eq, List.nil_append, List.mem_filter]
    exact ⟨hb, hgt⟩

/-- Witness of C1: the backend returns a `qr` box at `0.9` and a `stamp` box at `0.1`. -/
theorem detect_keeps_boxes_above_threshold_witness :
    sampleRequest.ImageData ≠ [] ∧
    (Predict twoBoxEnv sampleService.model "7f3a" sampleRequest.ImageData).err = none ∧
    ∃ r, (DetectObjects twoBoxEnv sampleService "7f3a" sampleRequest).result = some r ∧
      r.Detections = [qrBox, stampBox].filter (fun b => F32.gt b.Conf threshold) ∧
      r.Detections.Sublist [qrBox, stampBox] ∧
      (∀ b ∈ r.Detections, F32.gt b.Conf threshold = true) ∧
      (∀ b ∈ [qrBox, stampBox], F32.gt b.Conf threshold = true → b ∈ r.Detections) :=
  ⟨by decide, by decide,
    detect_keeps_boxes_above_threshold twoBoxEnv sampleService "7f3a" sampleRequest
      [qrBox, stampBox] (by decide) (by decide) (by decide)⟩

/-- C2: for a request whose image is empty, whatever its file name, `DetectObjects`
returns a nil error and the result with `Success = false`, the message
"No image data provided" and no detections. -/
theorem detect_empty_image_reported (env : Env) (s : DetectorService) (boundary : String)
    (req : DetectionRequest) (hempty : req.ImageData.length = 0) :
    (DetectObjects env s boundary req).err = none ∧
    (DetectObjects env s boundary req).result =
      some { Detections := [], ImageURL := "", Success := false,
             Message := "No image data provided" } := by
  simp [DetectObjects, hempty]

/-- Witness of C2: the empty request against a backend that would answer with two boxes. -/
theorem detect_empty_image_reported_witness :
    emptyRequest.ImageData.length = 0 ∧
    (DetectObjects twoBoxEnv sampleService "7f3a" emptyRequest).err = none ∧
    (DetectObjects twoBoxEnv sampleService "7f3a" emptyRequest).result =
      some { Detections := [], ImageURL := "", Success := false,
             Message := "No image data provided" } :=
  ⟨by decide, detect_empty_image_reported twoBoxEnv sampleService "7f3a" emptyRequest (by decide)⟩

/-- C3, as the code has it: for a non-empty image, if `Predict` returns the error `e`, then
`DetectObjects` returns a nil result and a new error that wraps `e` (`Unwrap` gives `e`
back) and whose message is "model prediction failed: " followed by the message of `e`; the
returned error is never `e` itself. -/
theorem detect_wraps_predict_error (env : Env) (s : DetectorService) (boundary : String)
    (req : DetectionRequest) (e : GoError)
    (hne : req.ImageData ≠ [])
    (herr : (Predict env s.model boundary req.ImageData).err = some e) :
    (DetectObjects env s boundary req).result = none ∧
    ∃ e2, (DetectObjects env s boundary req).err = some e2 ∧
      e2.Unwrap = some e ∧
      e2.Error = "model prediction failed: " ++ e.Error ∧
      e2 ≠ e := by
  rw [detect_of_nonempty env s boundary req hne, herr]
  exact ⟨rfl, _, rfl, rfl, rfl, wrap_ne_self _ e⟩

/-- Witness of C3 as amended: the transport refuses the connection. -/
theorem detect_wraps_predict_error_witness :
    sampleRequest.ImageData ≠ [] ∧
    (DetectObjects refusedEnv sampleService "7f3a" sampleRequest).result = none ∧
    ∃ e2, (DetectObjects refusedEnv sampleService "7f3a" sampleRequest).err = some e2 ∧
      e2.Unwrap = some (GoError.wrap "send request: connection refused"
        (GoError.leaf "connection refused")) ∧
      e2.Error = "model prediction failed: " ++
        (GoError.wrap "send request: connection refused"
          (GoError.leaf "connection refused")).Error ∧
      e2 ≠ GoError.wrap "send request: connection refused" (GoError.leaf "connection refused") :=
  ⟨by decide,
    detect_wraps_predict_error refusedEnv sampleService "7f3a" sampleRequest
      (GoError.wrap "send request: connection refused" (GoError.leaf "connection refused"))
      (by decide) (by decide)⟩

/-- Counterexample to C3 as stated: when the transport refuses the connection, `Predict`
returns the error "send request: connection refused", and `DetectObjects` returns a
different error, whose message is "model prediction failed: send request: connection
refused". -/
theorem detect_error_not_unchanged :
    sampleRequest.ImageData ≠ [] ∧
    (Predict refusedEnv sampleService.model "7f3a" sampleRequest.ImageData).err =
      some (GoError.wrap "send request: connection refused"
        (GoError.leaf "connection refused")) ∧
    (DetectObjects refusedEnv sampleService "7f3a" sampleRequest).err =
      some (GoError.wrap "model prediction failed: send request: connection refused"
        (GoError.wrap "send request: connection refused"
          (GoError.leaf "connection refused"))) ∧
    (DetectObjects refusedEnv sampleService "7f3a" sampleRequest).err ≠
      (Predict refusedEnv sampleService.model "7f3a" sampleRequest.ImageData).err ∧
    (DetectObjects refusedEnv sampleService "7f3a" sampleRequest).err.map GoError.Error ≠
      (Predict refusedEnv sampleService.model "7f3a" sampleRequest.ImageData).err.map
        GoError.Error := by
  decide

/-- C4, as the code has it: for a non-empty image whose request is built, whenever the
response `client.Do` returns has a status code other than 200, whatever the body,
`DetectObjects` returns a nil result and a non-nil error whose message contains the decimal
rendering of that status; this is the case in particular whenever the backend answers the
POST with a status other than 200 that is not one of the redirect statuses 301, 302, 303,
307, 308, which `net/http` follows instead of returning. -/
theorem detect_non200_is_error (env : Env) (s : DetectorService) (boundary : String)
    (req : DetectionRequest) (status : Int) (body : List UInt8)
    (hne : req.ImageData ≠ [])
    (hform : env.createFormFile = none) (hcopy : env.ioCopy req.ImageData = none)
    (hnew : env.newRequest "POST" s.model.inferenceURL = none)
    (hstatus : status ≠ 200) :
    (env.clientDo (buildRequest s.model boundary req.ImageData)
        = .ok { StatusCode := status, Body := body } →
      (DetectObjects env s boundary req).result = none ∧
      ∃ e, (DetectObjects env s boundary req).err = some e ∧
        (toString status).data <:+: e.Error.data) ∧
    (∀ location : String,
      env.roundTrip (buildRequest s.model boundary req.ImageData)
        = .answered { StatusCode := status, Location := location, Body := body } →
      isRedirect status = false →
      (DetectObjects env s boundary req).result = none ∧
      ∃ e, (DetectObjects env s boundary req).err = some e ∧
        (toString status).data <:+: e.Error.data) := by
  have hfinal : env.clientDo (buildRequest s.model boundary req.ImageData)
        = .ok { StatusCode := status, Body := body } →
      (DetectObjects env s boundary req).result = none ∧
      ∃ e, (DetectObjects env s boundary req).err = some e ∧
        (toString status).data <:+: e.Error.data := by
    intro hresp
    have hp := predict_of_built env s.model boundary req.ImageData hform hcopy hnew
    rw [hresp] at hp
    have hcode : (status ≠ StatusOK) := hstatus
    dsimp only at hp
    rw [if_pos hcode] at hp
    rw [detect_of_nonempty env s boundary req hne, hp]
    refine ⟨rfl, _, rfl, ?_⟩
    refine ⟨("model prediction failed: " ++ "inference failed with status: ").data, [], ?_⟩
    simp [Errorf_w, GoError.Error, fmt_d_eq_toString]
  refine ⟨hfinal, ?_⟩
  intro location hrt hdirect
  exact hfinal (clientDoOutcome_of_direct_answer env _ _ hrt hdirect).1

/-- Witness of C4 as amended: the backend answers the POST with 503. -/
theorem detect_non200_is_error_witness :
    sampleRequest.ImageData ≠ [] ∧ (503 : Int) ≠ 200 ∧
    unavailableEnv.roundTrip (buildRequest sampleService.model "7f3a" sampleRequest.ImageData)
      = .answered { StatusCode := 503, Location := "", Body := [] } ∧
    isRedirect 503 = false ∧
    (DetectObjects unavailableEnv sampleService "7f3a" sampleRequest).result = none ∧
    ∃ e, (DetectObjects unavailableEnv sampleService "7f3a" sampleRequest).err = some e ∧
      (toString (503 : Int)).data <:+: e.Error.data :=
  ⟨by decide, by decide, rfl, by decide,
    (detect_non200_is_error unavailableEnv sampleService "7f3a" sampleRequest 503 []
      (by decide) rfl rfl rfl (by decide)).2 "" rfl (by decide)⟩

/-- Counterexample to C4 as stated: the backend answers the POST with status 307 and a
`Location`; `net/http` follows the redirect, the final response is 200, and
`DetectObjects` returns a result and a nil error. -/
theorem detect_followed_redirect_succeeds :
    sampleRequest.ImageData ≠ [] ∧
    redirectEnv.roundTrip (buildRequest sampleService.model "7f3a" sampleRequest.ImageData)
      = .answered { StatusCode := 307, Location := "http://localhost:5000/v2/predict",
                    Body := [] } ∧
    (307 : Int) ≠ 200 ∧
    (DetectObjects redirectEnv sampleService "7f3a" sampleRequest).err = none ∧
    (DetectObjects redirectEnv sampleService "7f3a" sampleRequest).result =
      some { Detections := [qrBox], ImageURL := "", Success := true,
             Message := "Found 1 objects" } := by
  decide

/-- C5: for a non-empty image on which `Predict` succeeds, `DetectObjects` returns a nil
error and a result with `Success = true` whose message is "Found ", the decimal rendering
of the number of (filtered) detections, " objects"; when the backend returned no box the
result is `Success = true`, no detections, "Found 0 objects". -/
theorem detect_success_message (env : Env) (s : DetectorService) (boundary : String)
    (req : DetectionRequest)
    (hne : req.ImageData ≠ [])
    (herr : (Predict env s.model boundary req.ImageData).err = none) :
    (DetectObjects env s boundary req).err = none ∧
    ∃ r, (DetectObjects env s boundary req).result = some r ∧
      r.Success = true ∧
      r.Message = "Found " ++ toString r.Detections.length ++ " objects" ∧
      ((Predict env s.model boundary req.ImageData).detections = [] →
        r = { Detections := [], ImageURL := "", Success := true,
              Message := "Found 0 objects" }) := by
  rw [detect_of_nonempty env s boundary req hne, herr]
  refine ⟨rfl, _, rfl, rfl, ?_, ?_⟩
  · simp only [fmt_d_natCast]
  · intro hnil
    rw [hnil]
    decide

/-- Witness of C5: the backend returns no box. -/
theorem detect_success_message_witness :
    sampleRequest.ImageData ≠ [] ∧
    (DetectObjects noBoxEnv sampleService "7f3a" sampleRequest).err = none ∧
    ∃ r, (DetectObjects noBoxEnv sampleService "7f3a" sampleRequest).result = some r ∧
      r.Success = true ∧
      r.Message = "Found " ++ toString r.Detections.length ++ " objects" ∧
      ((Predict noBoxEnv sampleService.model "7f3a" sampleRequest.ImageData).detections = [] →
        r = { Detections := [], ImageURL := "", Success := true,
              Message := "Found 0 objects" }) :=
  ⟨by decide,
    detect_success_message noBoxEnv sampleService "7f3a" sampleRequest (by decide) (by decide)⟩

/-- C6: in the result of `DetectObjects`, a backend box whose confidence is the float32
of `0.3` is excluded and a backend box whose confidence is the float32 of `0.30001` is
included: the filter is the strict float32 comparison against the constant `0.3`. -/
theorem detect_threshold_boundary (env : Env) (s : DetectorService) (boundary : String)
    (req : DetectionRequest) (r : DetectionResult)
    (hne : req.ImageData ≠ [])
    (herr : (Predict env s.model boundary req.ImageData).err = none)
    (hres : (DetectObjects env s boundary req).result = some r) :
    (∀ b ∈ (Predict env s.model boundary req.ImageData).detections,
      b.Conf = F32.ofRatio 3 10 → b ∉ r.Detections) ∧
    (∀ b ∈ (Predict env s.model boundary req.ImageData).detections,
      b.Conf = F32.ofRatio 30001 100000 → b ∈ r.Detections) := by
  rw [detect_of_nonempty env s boundary req hne, herr] at hres
  simp only [Option.some.injEq] at hres
  subst hres
  simp only [filterLoop_eq, List.nil_append, List.mem_filter]
  constructor
  · intro b _ hconf hmem
    have hgt := hmem.2
    rw [hconf] at hgt
    revert hgt
    decide
  · intro b hb hconf
    refine ⟨hb, ?_⟩
    rw [hconf]
    decide

/-- Witness of C6: the backend returns a box at `0.3` and a box at `0.30001`; only the
second one is in the result. -/
theorem detect_threshold_boundary_witness :
    sampleRequest.ImageData ≠ [] ∧
    (DetectObjects boundaryEnv sampleService "7f3a" sampleRequest).result =
      some { Detections := [aboveThresholdBox], ImageURL := "", Success := true,
             Message := "Found 1 objects" } ∧
    (∀ b ∈ (Predict boundaryEnv sampleService.model "7f3a" sampleRequest.ImageData).detections,
      b.Conf = F32.ofRatio 3 10 → b ∉ [aboveThresholdBox]) ∧
    (∀ b ∈ (Predict boundaryEnv sampleService.model "7f3a" sampleRequest.ImageData).detections,
      b.Conf = F32.ofRatio 30001 100000 → b ∈ [aboveThresholdBox]) :=
  ⟨by decide, by decide,
    detect_threshold_boundary boundaryEnv sampleService "7f3a" sampleRequest
      { Detections := [aboveThresholdBox], ImageURL := "", Success := true,
        Message := "Found 1 objects" } (by decide) (by decide) (by decide)⟩

/-- C7, as the code has it: when the backend answers 200 and `Decode` rejects the body,
`Predict` returns no boxes and a non-nil error wrapping the decoding error, and
`DetectObjects` (on a non-empty image) returns a nil result and a non-nil error. `Decode`
rejects in particular every body that is empty or blank and every body whose first
non-blank byte neither opens a JSON object nor starts the literal `null`. -/
theorem detect_undecodable_body_is_error (env : Env) (s : DetectorService)
    (boundary : String) (req : DetectionRequest) (body : List UInt8)
    (hne : req.ImageData ≠ [])
    (hform : env.createFormFile = none) (hcopy : env.ioCopy req.ImageData = none)
    (hnew : env.newRequest "POST" s.model.inferenceURL = none)
    (hresp : env.clientDo (buildRequest s.model boundary req.ImageData)
      = .ok { StatusCode := 200, Body := body }) :
    (rejectedAtFirstByte body = true →
      (∃ pe, (Predict env s.model boundary req.ImageData).err = some pe) ∧
      (Predict env s.model boundary req.ImageData).detections = [] ∧
      (DetectObjects env s boundary req).result = none ∧
      ∃ de, (DetectObjects env s boundary req).err = some de) ∧
    (∀ e, jsonDecode env body = .error e →
      (∃ pe, (Predict env s.model boundary req.ImageData).err = some pe ∧
        pe.Unwrap = some e ∧ pe.Error = "decode response: " ++ e.Error) ∧
      (Predict env s.model boundary req.ImageData).detections = [] ∧
      (DetectObjects env s boundary req).result = none ∧
      ∃ de, (DetectObjects env s boundary req).err = some de) := by
  constructor
  · intro hrej
    obtain ⟨e, hdec⟩ := jsonDecode_of_rejected env body hrej
    have hp := predict_decode_error env s.model boundary req.ImageData body e
      hform hcopy hnew hresp hdec
    rw [detect_of_nonempty env s boundary req hne, hp]
    exact ⟨⟨_, rfl⟩, rfl, rfl, _, rfl⟩
  · intro e hdec
    have hp := predict_decode_error env s.model boundary req.ImageData body e
      hform hcopy hnew hresp hdec
    rw [detect_of_nonempty env s boundary req hne, hp]
    exact ⟨⟨_, rfl, rfl, rfl⟩, rfl, rfl, _, rfl⟩

/-- Witness of C7 as amended: the backend answers 200 with the bytes of `<html>`. -/
theorem detect_undecodable_body_is_error_witness :
    sampleRequest.ImageData ≠ [] ∧
    garbledEnv.clientDo (buildRequest sampleService.model "7f3a" sampleRequest.ImageData)
      = .ok { StatusCode := 200, Body := [60, 104, 116, 109, 108, 62] } ∧
    rejectedAtFirstByte [60, 104, 116, 109, 108, 62] = true ∧
    (DetectObjects garbledEnv sampleService "7f3a" sampleRequest).err.map GoError.Error =
      some ("model prediction failed: decode response: " ++
        "invalid character \x27<\x27 looking for beginning of value") ∧
    (∃ pe, (Predict garbledEnv sampleService.model "7f3a" sampleRequest.ImageData).err
      = some pe) ∧
    (Predict garbledEnv sampleService.model "7f3a" sampleRequest.ImageData).detections = [] ∧
    (DetectObjects garbledEnv sampleService "7f3a" sampleRequest).result = none ∧
    ∃ de, (DetectObjects garbledEnv sampleService "7f3a" sampleRequest).err = some de :=
  ⟨by decide, rfl, by decide, by decide,
    (detect_undecodable_body_is_error garbledEnv sampleService "7f3a" sampleRequest
      [60, 104, 116, 109, 108, 62] (by decide) rfl rfl rfl rfl).1 (by decide)⟩

/-- Counterexample to C7 as stated: the bodies `{}` and `null` do not have the shape
`{"detections": [...]}`, yet for a 200 response carrying either of them `Predict` returns
a nil error and `DetectObjects` returns the result "Found 0 objects". -/
theorem detect_accepts_body_without_detections :
    sampleRequest.ImageData ≠ [] ∧
    (Predict (bodyEnv [123, 125]) sampleService.model "7f3a" sampleRequest.ImageData).err
      = none ∧
    (DetectObjects (bodyEnv [123, 125]) sampleService "7f3a" sampleRequest).err = none ∧
    (DetectObjects (bodyEnv [123, 125]) sampleService "7f3a" sampleRequest).result =
      some { Detections := [], ImageURL := "", Success := true,
             Message := "Found 0 objects" } ∧
    (Predict (bodyEnv [110, 117, 108, 108]) sampleService.model "7f3a"
      sampleRequest.ImageData).err = none ∧
    (DetectObjects (bodyEnv [110, 117, 108, 108]) sampleService "7f3a" sampleRequest).result =
      some { Detections := [], ImageURL := "", Success := true,
             Message := "Found 0 objects" } := by
  decide

/-- C8: in every result `DetectObjects` returns, `Success = false` implies that there are
no detections. -/
theorem detect_failure_has_no_detections (env : Env) (s : DetectorService)
    (boundary : String) (req : DetectionRequest) (r : DetectionResult)
    (hres : (DetectObjects env s boundary req).result = some r)
    (hfail : r.Success = false) :
    r.Detections = [] := by
  by_cases hempty : req.ImageData = []
  · have h := (detect_empty_image_result env s boundary req hempty)
    rw [h] at hres
    simp only [Option.some.injEq] at hres
    subst hres
    rfl
  · rw [detect_of_nonempty env s boundary req hempty] at hres
    cases hp : (Predict env s.model boundary req.ImageData).err with
    | some err =>
      rw [hp] at hres
      simp at hres
    | none =>
      rw [hp] at hres
      simp only [Option.some.injEq] at hres
      subst hres
      simp at hfail

/-- Witness of C8: the result returned for the empty request. -/
theorem detect_failure_has_no_detections_witness :
    (DetectObjects twoBoxEnv sampleService "7f3a" emptyRequest).result =
      some { Detections := [], ImageURL := "", Success := false,
             Message := "No image data provided" } ∧
    ({ Detections := [], ImageURL := "", Success := false,
       Message := "No image data provided" } : DetectionResult).Detections = [] :=
  ⟨by decide,
    detect_failure_has_no_detections twoBoxEnv sampleService "7f3a" emptyRequest
      { Detections := [], ImageURL := "", Success := false,
        Message := "No image data provided" } (by decide) rfl⟩

/-- C9, as the code has it: a call of `DetectObjects` with an empty image invokes neither
`Predict` nor the backend. A call with a non-empty image invokes `Predict` exactly once,
and that invocation calls `client.Do` at most once, with no retry: not at all when
`CreateFormFile`, `io.Copy` or `http.NewRequest` fails, and exactly once otherwise. That
one call puts no POST on the wire when the transport fails before writing, exactly one
POST when the request is written and lost or answered with a status that is not a
redirect status, and at least one when the answer is a redirect that `net/http` follows. -/
theorem detect_outbound_calls (env : Env) (s : DetectorService) (boundary : String)
    (req : DetectionRequest) :
    (req.ImageData = [] → (DetectObjects env s boundary req).trace = []) ∧
    (req.ImageData ≠ [] →
      predictCalls (DetectObjects env s boundary req).trace = 1 ∧
      clientDoCalls (DetectObjects env s boundary req).trace ≤ 1 ∧
      (env.createFormFile ≠ none ∨ env.ioCopy req.ImageData ≠ none ∨
          env.newRequest "POST" s.model.inferenceURL ≠ none →
        (DetectObjects env s boundary req).trace = [Event.predict req.ImageData]) ∧
      (env.createFormFile = none → env.ioCopy req.ImageData = none →
        env.newRequest "POST" s.model.inferenceURL = none →
        clientDoCalls (DetectObjects env s boundary req).trace = 1 ∧
        (∀ err, env.roundTrip (buildRequest s.model boundary req.ImageData) = .notSent err →
          posts (DetectObjects env s boundary req).trace = 0) ∧
        (∀ err, env.roundTrip (buildRequest s.model boundary req.ImageData) = .lost err →
          posts (DetectObjects env s boundary req).trace = 1) ∧
        (∀ a, env.roundTrip (buildRequest s.model boundary req.ImageData) = .answered a →
          isRedirect a.StatusCode = false →
          posts (DetectObjects env s boundary req).trace = 1) ∧
        (∀ a, env.roundTrip (buildRequest s.model boundary req.ImageData) = .answered a →
          isRedirect a.StatusCode = true →
          1 ≤ posts (DetectObjects env s boundary req).trace))) := by
  constructor
  · intro hempty
    simp [DetectObjects, hempty]
  · intro hne
    rw [detect_trace_of_nonempty env s boundary req hne]
    by_cases hbuilt : env.createFormFile = none ∧ env.ioCopy req.ImageData = none ∧
        env.newRequest "POST" s.model.inferenceURL = none
    · obtain ⟨hform, hcopy, hnew⟩ := hbuilt
      rw [predict_trace_of_built env s.model boundary req.ImageData hform hcopy hnew]
      have hcalls : clientDoCalls (Event.predict req.ImageData ::
          doTrace env (buildRequest s.model boundary req.ImageData)) = 1 := by
        simp [clientDoCalls, doTrace, List.countP_cons, List.countP_map, Function.comp_def]
      refine ⟨?_, by omega, ?_, fun _ _ _ => ⟨hcalls, ?_, ?_, ?_, ?_⟩⟩
      · simp [predictCalls, doTrace, List.countP_cons, List.countP_map, Function.comp_def]
      · intro h
        rcases h with h | h | h
        · exact absurd hform h
        · exact absurd hcopy h
        · exact absurd hnew h
      · intro err hrt
        rw [posts_doTrace]
        simp [Env.clientDoOutcome, hrt]
      · intro err hrt
        rw [posts_doTrace]
        simp only [Env.clientDoOutcome, hrt]
        simp [buildRequest, List.countP_cons]
      · intro a hrt hdirect
        rw [posts_doTrace]
        simp only [Env.clientDoOutcome, hrt, hdirect]
        simp [buildRequest, List.countP_cons]
      · intro a hrt hredirect
        rw [posts_doTrace]
        simp only [Env.clientDoOutcome, hrt, hredirect]
        simp [buildRequest, List.countP_cons]
    · have hnot : env.createFormFile ≠ none ∨ env.ioCopy req.ImageData ≠ none ∨
          env.newRequest "POST" s.model.inferenceURL ≠ none := by
        by_contra hcon
        push_neg at hcon
        exact hbuilt hcon
      rw [predict_trace_of_not_built env s.model boundary req.ImageData hnot]
      refine ⟨by simp [predictCalls], by simp [clientDoCalls], fun _ => rfl, ?_⟩
      intro hform hcopy hnew
      exact absurd ⟨hform, hcopy, hnew⟩ hbuilt

/-- Witness of C9 as amended: the sample request against a backend answering 200 gives
one `Predict` invocation, one call of `client.Do` and one POST on the wire. -/
theorem detect_outbound_calls_witness :
    sampleRequest.ImageData ≠ [] ∧
    (DetectObjects twoBoxEnv sampleService "7f3a" sampleRequest).trace =
      [Event.predict sampleRequest.ImageData,
        Event.clientDo (buildRequest sampleService.model "7f3a" sampleRequest.ImageData),
        Event.sent ⟨"POST", "http://localhost:5000/predict"⟩] ∧
    predictCalls (DetectObjects twoBoxEnv sampleService "7f3a" sampleRequest).trace = 1 ∧
    clientDoCalls (DetectObjects twoBoxEnv sampleService "7f3a" sampleRequest).trace = 1 ∧
    posts (DetectObjects twoBoxEnv sampleService "7f3a" sampleRequest).trace = 1 :=
  ⟨by decide, by decide,
    ((detect_outbound_calls twoBoxEnv sampleService "7f3a" sampleRequest).2 (by decide)).1,
    (((detect_outbound_calls twoBoxEnv sampleService "7f3a" sampleRequest).2
      (by decide)).2.2.2 rfl rfl rfl).1,
    (((detect_outbound_calls twoBoxEnv sampleService "7f3a" sampleRequest).2
      (by decide)).2.2.2 rfl rfl rfl).2.2.2.1 _ rfl (by decide)⟩

/-- Counterexample to C9 as stated: a call with an empty image puts no POST on the wire
and does not invoke `Predict`; a call with a non-empty image puts no POST on the wire when
`http.NewRequest` rejects the configured URL or when the connection is refused, and puts
two POSTs on the wire when the backend answers 307 and `net/http` follows the redirect. -/
theorem detect_call_without_single_post :
    posts (DetectObjects twoBoxEnv sampleService "7f3a" emptyRequest).trace = 0 ∧
    predictCalls (DetectObjects twoBoxEnv sampleService "7f3a" emptyRequest).trace = 0 ∧
    sampleRequest.ImageData ≠ [] ∧
    posts (DetectObjects strictURLEnv badURLService "7f3a" sampleRequest).trace = 0 ∧
    predictCalls (DetectObjects strictURLEnv badURLService "7f3a" sampleRequest).trace = 1 ∧
    posts (DetectObjects refusedEnv sampleService "7f3a" sampleRequest).trace = 0 ∧
    clientDoCalls (DetectObjects refusedEnv sampleService "7f3a" sampleRequest).trace = 1 ∧
    posts (DetectObjects redirectEnv sampleService "7f3a" sampleRequest).trace = 2 ∧
    clientDoCalls (DetectObjects redirectEnv sampleService "7f3a" sampleRequest).trace = 1 := by
  decide

/-- C10: against a deterministic backend (the outcome of `client.Do` is a fixed function
of the image bytes), two calls of `DetectObjects` with the same service and the same
request return the same result and the same error, whatever multipart boundary each call
draws. -/
theorem detect_deterministic (env : Env) (s : DetectorService) (req : DetectionRequest)
    (b1 b2 : String) (backend : List UInt8 → Except GoError Response)
    (hbackend : ∀ r : Request, env.clientDo r = backend r.File) :
    (DetectObjects env s b1 req).result = (DetectObjects env s b2 req).result ∧
    (DetectObjects env s b1 req).err = (DetectObjects env s b2 req).err := by
  by_cases hempty : req.ImageData = []
  · simp [DetectObjects, hempty]
  · obtain ⟨herr, hdet⟩ :=
      predict_boundary_independent env s.model b1 b2 req.ImageData backend hbackend
    rw [detect_of_nonempty env s b1 req hempty, detect_of_nonempty env s b2 req hempty,
      herr, hdet]
    cases (Predict env s.model b2 req.ImageData).err with
    | some err => exact ⟨rfl, rfl⟩
    | none => exact ⟨rfl, rfl⟩

/-- Witness of C10: two calls with different boundaries against a backend whose answer
depends on the image bytes only. -/
theorem detect_deterministic_witness :
    (∀ r : Request, jpegEnv.clientDo r = jpegBackend r.File) ∧
    (DetectObjects jpegEnv sampleService "7f3a" sampleRequest).result =
      (DetectObjects jpegEnv sampleService "c41d" sampleRequest).result ∧
    (DetectObjects jpegEnv sampleService "7f3a" sampleRequest).err =
      (DetectObjects jpegEnv sampleService "c41d" sampleRequest).err :=
  ⟨jpegEnv_clientDo,
    detect_deterministic jpegEnv sampleService sampleRequest "7f3a" "c41d" jpegBackend
      jpegEnv_clientDo⟩

/-! ## scenarios of the specification -/

theorem scenario_qr_and_stamp :
    (DetectObjects twoBoxEnv sampleService "7f3a" sampleRequest).result =
      some { Detections := [qrBox], ImageURL := "", Success := true,
             Message := "Found 1 objects" } := by
  decide

theorem scenario_non200_message :
    (DetectObjects unavailableEnv sampleService "7f3a" sampleRequest).err.map GoError.Error =
      some "model prediction failed: inference failed with status: 503" := by
  decide

theorem scenario_unreachable :
    (DetectObjects refusedEnv sampleService "7f3a" sampleRequest).result = none ∧
    (DetectObjects refusedEnv sampleService "7f3a" sampleRequest).err.isSome = true := by
  decide

end Prudodetect
